import Mathlib

/-!
Shallow embedding of the video transcription-and-conversion service.

Sources embedded here:
* src/Cloud-Run-Function/main.py  — the storage-event trigger
  `process_video_transcription` that submits a transcription job.
* src/Flask-VM-App/app.py — the Flask conversion orchestrator
  `convert_video` and the availability poller `download_options`.

Pure string manipulation (Python's `os.path.splitext`, `str.endswith`,
`str.startswith`, `os.path.join`) is modelled over `List Char` / `String`;
the effectful handlers are modelled as functions of an explicit environment
of external outcomes (store calls, ffmpeg, client construction), returning
the handler result together with the trace of store/transcoder actions and
the set of this request's local scratch files that remain afterwards.
-/

namespace VideoApp

/-! ### Python `os.path.splitext` (posix semantics)

`posixpath.splitext(p)` splits at the last `'.'` of `p`, provided that dot
comes after the last `'/'` and the basename has at least one non-dot
character strictly before the last dot (so `".bashrc"` has no extension).
We compute on the reversed character list: scan from the right; if we meet
a `'.'` before any `'/'`, and the remaining characters up to the next `'/'`
contain some non-dot character, the extension starts at that dot. -/

/-- Scanning leftwards from just before the candidate dot: is there a
non-dot character before the enclosing directory separator? -/
def hasNonDotBeforeSep : List Char → Bool
  | [] => false
  | c :: rest => if c = '/' then false else if c = '.' then hasNonDotBeforeSep rest else true

/-- Core of splitext, on the REVERSED character list of a path: returns
the pair (reversed extension, reversed root); the extension is empty when
os.path.splitext would return an empty extension. -/
def splitExtRev : List Char → List Char × List Char
  | [] => ([], [])
  | c :: rest =>
    if c = '/' then ([], c :: rest)
    else if c = '.' then
      if hasNonDotBeforeSep rest then ([c], rest) else ([], c :: rest)
    else
      match splitExtRev rest with
      | ([], _) => ([], c :: rest)
      | (e, r) => (c :: e, r)

/-- First component of os.path.splitext: the path with its extension
(if any) stripped. -/
def splitextBase (s : String) : String :=
  String.mk ((splitExtRev s.data.reverse).2.reverse)

/-- Second component of os.path.splitext: the extension including its
leading dot, or empty when there is none. -/
def splitextExt (s : String) : String :=
  String.mk ((splitExtRev s.data.reverse).1.reverse)

/-- Python str.startswith. -/
def strStartsWith (s p : String) : Bool := p.data.isPrefixOf s.data

/-- Python str.endswith for a single suffix: s ends with suffix iff
dropping all but the last suffix.length characters leaves the suffix. -/
def endsWithStr (s suffix : String) : Bool :=
  decide (s.data.drop (s.data.length - suffix.data.length) = suffix.data)

/-- Python os.path.join for two posix path components (the only form the
source uses: the second component decides whether it is absolute). -/
def osPathJoin (a b : String) : String :=
  if strStartsWith b "/" then b
  else if a = "" ∨ endsWithStr a "/" then a ++ b
  else a ++ "/" ++ b

end VideoApp

namespace VideoApp

/-! ### Trigger: src/Cloud-Run-Function/main.py -/

/-- Constant OUTPUT_FOLDER of main.py line 7. -/
def OUTPUT_FOLDER : String := "transcriptions/"

/-- Python str.lower, character by character (Char.toLower agrees with
the Python mapping on the ASCII range, which covers every extension the
source compares against). -/
def pyLower (s : String) : String := String.mk (s.data.map Char.toLower)

/-- Lines 35 and 36 of main.py: the supported_extensions tuple .mp4, .mov,
.avi, .mpg, .mpeg, .mkv, .webm and the lowercased endswith check over it. -/
def hasSupportedVideoExtension (name : String) : Bool :=
  let l := pyLower name
  endsWithStr l ".mp4" || endsWithStr l ".mov" || endsWithStr l ".avi" ||
  endsWithStr l ".mpg" || endsWithStr l ".mpeg" || endsWithStr l ".mkv" ||
  endsWithStr l ".webm"

/-- Lines 47 to 49 of main.py: the object name (within the same bucket)
the trigger derives for the transcription output: OUTPUT_FOLDER, then the
extension-stripped object name, then .json. -/
def triggerOutputObjectName (file_name : String) : String :=
  OUTPUT_FOLDER ++ splitextBase file_name ++ ".json"

/-- Speech transcription configuration (main.py lines 55 to 59). -/
structure TranscriptionConfig where
  languageCode : String
  enableAutomaticPunctuation : Bool
  enableSpeakerDiarization : Bool
deriving DecidableEq, Repr

/-- External outcomes the trigger can encounter: whether constructing the
Video Intelligence client (line 52, outside the `try`) succeeds, and
whether submitting the annotate request (line 69, inside the `try`)
succeeds. -/
structure TriggerEnv where
  clientInitOk : Bool
  submitOk : Bool
deriving DecidableEq, Repr

/-- How one invocation of the trigger ends, when it returns normally. -/
inductive TriggerOutcome where
  | missingData
  | skippedOutputFolder
  | skippedUnsupported
  | submitted (inputUri outputUri : String) (cfg : TranscriptionConfig)
  | submitFailedLogged (inputUri : String)
deriving DecidableEq, Repr

/-- A trigger invocation either returns normally with an outcome, or lets
an exception propagate to the event-delivery system. -/
inductive TriggerResult where
  | returned (o : TriggerOutcome)
  | raised
deriving DecidableEq, Repr

/-- Python falsiness of an optional string: absent or empty. -/
def falsyStr : Option String → Bool
  | none => true
  | some s => decide (s = "")

/-- Embedding of process_video_transcription (main.py lines 11 to 83),
over explicit event fields and external outcomes.  Note that the client
construction (line 52) happens BEFORE the try block (line 64): its failure
is not caught and propagates (TriggerResult.raised), while a failure of
the annotate_video submission is caught and logged (lines 82 and 83). -/
def process_video_transcription (env : TriggerEnv) (bucket name : Option String) :
    TriggerResult :=
  if falsyStr bucket || falsyStr name then .returned .missingData
  else if strStartsWith (name.getD "") OUTPUT_FOLDER then .returned .skippedOutputFolder
  else if ! hasSupportedVideoExtension (name.getD "") then .returned .skippedUnsupported
  else if ! env.clientInitOk then .raised
  else if env.submitOk then
    .returned (.submitted
      ("gs://" ++ bucket.getD "" ++ "/" ++ name.getD "")
      ("gs://" ++ bucket.getD "" ++ "/" ++ triggerOutputObjectName (name.getD ""))
      { languageCode := "en-US"
        enableAutomaticPunctuation := true
        enableSpeakerDiarization := true })
  else .returned (.submitFailedLogged ("gs://" ++ bucket.getD "" ++ "/" ++ name.getD ""))

/-- The event was discarded without submitting a job (any of the three
log-and-return validation exits). -/
def isDiscard : TriggerResult → Bool
  | .returned .missingData => true
  | .returned .skippedOutputFolder => true
  | .returned .skippedUnsupported => true
  | _ => false

end VideoApp

namespace VideoApp

/-! ### Orchestrator and poller: src/Flask-VM-App/app.py -/

/-- app.py line 16. -/
def INPUT_BUCKET_NAME : String := "video-image-input-bucket"

/-- app.py line 17. -/
def OUTPUT_BUCKET_NAME : String := "video-image-output-bucket"

/-- app.py line 19. -/
def TEMP_PROCESSING_DIR : String := "/tmp/videoconverter_processing"

/-- Line 145 of app.py: gcs_input_filename, the job id, an underscore and
the original filename. -/
def gcsInputFilename (jobId originalFilename : String) : String :=
  jobId ++ "_" ++ originalFilename

/-- Line 146 of app.py: gcs_output_filename, the job id, an underscore,
the extension-stripped original filename (line 139), a dot and the target
format. -/
def gcsOutputFilename (jobId originalFilename targetFormat : String) : String :=
  jobId ++ "_" ++ splitextBase originalFilename ++ "." ++ targetFormat

/-- Line 149 of app.py: local_input_path, joining TEMP_PROCESSING_DIR with
input_ followed by gcs_input_filename. -/
def localInputPath (jobId originalFilename : String) : String :=
  osPathJoin TEMP_PROCESSING_DIR ("input_" ++ gcsInputFilename jobId originalFilename)

/-- Line 150 of app.py: local_output_path, joining TEMP_PROCESSING_DIR
with output_ followed by gcs_output_filename. -/
def localOutputPath (jobId originalFilename targetFormat : String) : String :=
  osPathJoin TEMP_PROCESSING_DIR
    ("output_" ++ gcsOutputFilename jobId originalFilename targetFormat)

/-- Line 153 of app.py: input_blob_name, the uploads/ path of
gcs_input_filename. -/
def inputBlobName (jobId originalFilename : String) : String :=
  "uploads/" ++ gcsInputFilename jobId originalFilename

/-- Line 154 of app.py: output_blob_name, the converted/ path of
gcs_output_filename. -/
def outputBlobName (jobId originalFilename targetFormat : String) : String :=
  "converted/" ++ gcsOutputFilename jobId originalFilename targetFormat

/-- Lines 223 to 226 of app.py: the content-type override the handler
computes for the output upload.  (The source computes this value but never
passes it to upload_from_filename on line 228.) -/
def computedOutputContentType (targetFormat : String) : Option String :=
  if pyLower targetFormat = "mov" then some "video/quicktime"
  else if pyLower targetFormat = "avi" then some "video/x-msvideo"
  else none

/-- Lines 280 to 282 of download_options: the transcript object name the
poller checks in the output bucket for a given identifier. -/
def pollerTranscriptionBlobName (identifier : String) : String :=
  "transcriptions/converted/" ++ splitextBase identifier ++ ".json"

/-- Line 275 of download_options: the converted-video object name. -/
def pollerVideoBlobName (identifier : String) : String :=
  "converted/" ++ identifier

/-- One call against the object store. -/
inductive StoreOp where
  | upload (bucket key : String) (contentType : Option String)
  | download (bucket key : String)
  | existsCheck (bucket key : String)
  | delete (bucket key : String)
deriving DecidableEq, Repr

/-- One external I/O action of the orchestrator: a store call or an
invocation of the ffmpeg transcoder. -/
inductive Action where
  | store (op : StoreOp)
  | transcode (inputPath outputPath : String)
deriving DecidableEq, Repr

/-- Whether the action deletes a store object. -/
def Action.isDelete : Action → Bool
  | .store (.delete _ _) => true
  | _ => false

/-- Outcome of the GCS download of the just-uploaded input (app.py lines
170 to 187). -/
inductive DownloadOutcome where
  | ok
  | notFound
  | failed
deriving DecidableEq, Repr

/-- The incoming request, as convert_video sees it: whether the video
file part is present, its filename, the format form field and the content
type of the uploaded file. -/
structure ConvertRequest where
  hasVideoFile : Bool
  filename : String
  format : Option String
  contentType : Option String
deriving DecidableEq, Repr

/-- External outcomes one convert_video invocation can encounter. -/
structure ConvertEnv where
  storageClientOk : Bool
  inputUploadOk : Bool
  inputDownload : DownloadOutcome
  downloadLeavesStrayInput : Bool
  ffmpegError : Option String
  ffmpegLeavesStrayOutput : Bool
  removeAfterDownloadErrorOk : Bool
  removeAfterFfmpegErrorOk : Bool
  outputUploadOk : Bool
  finallyRemoveInputOk : Bool
  finallyRemoveOutputOk : Bool
deriving DecidableEq, Repr

/-- How the request ends: an abort with an HTTP status, or the success
redirect to download_options with the derived identifier. -/
inductive ConvertResult where
  | aborted (status : Nat)
  | redirected (identifier : String)
deriving DecidableEq, Repr

/-- Result of one convert_video invocation: the HTTP-level result, the
trace of store/transcoder actions performed, and the local scratch files
of THIS request still present when the handler has finished. -/
structure ConvertRun where
  result : ConvertResult
  trace : List Action
  localFiles : List String
deriving DecidableEq, Repr

/-- `convert_video` (app.py lines 118–260), with the minted
`job_id = str(uuid.uuid4())` (line 143) passed explicitly.  Human-readable
abort descriptions are omitted; branching and file/store effects follow
the source:
* line 123: storage client missing → abort 500, no I/O;
* lines 127–129: missing `'video'` part → abort 400, no I/O;
* lines 134–136: empty filename or falsy format → abort 400, no I/O;
* lines 157–167: upload input to input bucket (with the request's content
  type); failure → abort 500;
* lines 169–187: download the input for processing; `NotFound` → abort
  500; other failure → remove any stray local input, abort 500;
* lines 189–216: run ffmpeg; on error remove the local input (a stray
  partial output file is NOT removed), abort 500;
* lines 218–235: upload the converted file to the output bucket — with NO
  content type: line 228 never uses the computed `output_content_type`;
  failure → abort 500 (after the `finally` cleanup);
* lines 236–255: `finally`, remove both local files (best effort);
* line 260: redirect to `download_options` with `gcs_output_filename`. -/
def convert_video (req : ConvertRequest) (jobId : String) (env : ConvertEnv) : ConvertRun :=
  if ! env.storageClientOk then ⟨.aborted 500, [], []⟩
  else if ! req.hasVideoFile then ⟨.aborted 400, [], []⟩
  else if req.filename = "" ∨ falsyStr req.format then ⟨.aborted 400, [], []⟩
  else
    let fmt := req.format.getD ""
    let inBlob := inputBlobName jobId req.filename
    let outBlob := outputBlobName jobId req.filename fmt
    let lin := localInputPath jobId req.filename
    let lout := localOutputPath jobId req.filename fmt
    let t1 : List Action := [.store (.upload INPUT_BUCKET_NAME inBlob req.contentType)]
    if ! env.inputUploadOk then ⟨.aborted 500, t1, []⟩
    else
      let t2 := t1 ++ [.store (.download INPUT_BUCKET_NAME inBlob)]
      match env.inputDownload with
      | .notFound => ⟨.aborted 500, t2, []⟩
      | .failed =>
          ⟨.aborted 500, t2,
            if env.downloadLeavesStrayInput ∧ ! env.removeAfterDownloadErrorOk
            then [lin] else []⟩
      | .ok =>
        let t3 := t2 ++ [.transcode lin lout]
        match env.ffmpegError with
        | some _ =>
            ⟨.aborted 500, t3,
              (if env.removeAfterFfmpegErrorOk then [] else [lin]) ++
              (if env.ffmpegLeavesStrayOutput then [lout] else [])⟩
        | none =>
            let t4 := t3 ++ [.store (.upload OUTPUT_BUCKET_NAME outBlob none)]
            let remaining :=
              (if env.finallyRemoveInputOk then [] else [lin]) ++
              (if env.finallyRemoveOutputOk then [] else [lout])
            if ! env.outputUploadOk then ⟨.aborted 500, t4, remaining⟩
            else ⟨.redirected (gcsOutputFilename jobId req.filename fmt), t4, remaining⟩

/-- An environment in which every external call succeeds. -/
def envAllOk : ConvertEnv :=
  { storageClientOk := true
    inputUploadOk := true
    inputDownload := .ok
    downloadLeavesStrayInput := false
    ffmpegError := none
    ffmpegLeavesStrayOutput := false
    removeAfterDownloadErrorOk := true
    removeAfterFfmpegErrorOk := true
    outputUploadOk := true
    finallyRemoveInputOk := true
    finallyRemoveOutputOk := true }

/-- The four artifact names one job derives (input object, output object,
local input working path, local output working path): lines 145–154. -/
def convertJobNames (jobId originalFilename targetFormat : String) : List String :=
  [inputBlobName jobId originalFilename,
   outputBlobName jobId originalFilename targetFormat,
   localInputPath jobId originalFilename,
   localOutputPath jobId originalFilename targetFormat]

/-- What download_options (app.py lines 265 to 315) reports, given the
results of the two existence checks. -/
structure DownloadOptionsView where
  videoBlobName : String
  transcriptionBlobName : String
  videoAvailable : Bool
  transcriptionAvailable : Bool
deriving DecidableEq, Repr

/-- Embedding of download_options over an explicit existence oracle for
the two objects it checks in the output bucket. -/
def download_options (videoExistsCk transcriptionExistsCk : Bool)
    (identifier : String) : DownloadOptionsView :=
  { videoBlobName := pollerVideoBlobName identifier
    transcriptionBlobName := pollerTranscriptionBlobName identifier
    videoAvailable := videoExistsCk
    transcriptionAvailable := transcriptionExistsCk }

end VideoApp

namespace VideoApp

/-! ### Helper lemmas -/

/-- Character-list data of the literal suffix used in the round-trip
claim. -/
lemma data_clip_mov : ("_clip.mov" : String).data
    = ['_', 'c', 'l', 'i', 'p', '.', 'm', 'o', 'v'] := rfl

/-- Splitting the extension of any path ending in the nine characters
of the suffix _clip.mov strips exactly .mov. -/
lemma splitextBase_append_clip_mov (s : String) :
    splitextBase (s ++ "_clip.mov") = s ++ "_clip" := by
  apply String.ext
  show (splitExtRev (s ++ "_clip.mov").data.reverse).2.reverse = (s ++ "_clip").data
  rw [String.data_append, data_clip_mov, List.reverse_append]
  have h2 : (['_', 'c', 'l', 'i', 'p', '.', 'm', 'o', 'v'] : List Char).reverse
      = ['v', 'o', 'm', '.', 'p', 'i', 'l', 'c', '_'] := rfl
  rw [h2]
  have h3 : splitExtRev (['v', 'o', 'm', '.', 'p', 'i', 'l', 'c', '_'] ++ s.data.reverse)
      = (['v', 'o', 'm', '.'], 'p' :: 'i' :: 'l' :: 'c' :: '_' :: s.data.reverse) := rfl
  rw [h3]
  simp [String.data_append]

/-- Data of the derived input object name. -/
lemma inputBlobName_data (j fn : String) :
    (inputBlobName j fn).data
      = 'u' :: 'p' :: 'l' :: 'o' :: 'a' :: 'd' :: 's' :: '/' :: (j.data ++ '_' :: fn.data) := by
  simp [inputBlobName, gcsInputFilename, String.data_append]

/-- Data of the derived output object name. -/
lemma outputBlobName_data (j fn fmt : String) :
    (outputBlobName j fn fmt).data
      = 'c' :: 'o' :: 'n' :: 'v' :: 'e' :: 'r' :: 't' :: 'e' :: 'd' :: '/' ::
        (j.data ++ '_' :: ((splitextBase fn).data ++ '.' :: fmt.data)) := by
  simp [outputBlobName, gcsOutputFilename, String.data_append]

/-- Data of the local input working path. -/
lemma localInputPath_data (j fn : String) :
    (localInputPath j fn).data
      = '/' :: 't' :: 'm' :: 'p' :: '/' :: 'v' :: 'i' :: 'd' :: 'e' :: 'o' :: 'c' :: 'o' :: 'n' :: 'v' :: 'e' :: 'r' :: 't' :: 'e' :: 'r' :: '_' :: 'p' :: 'r' :: 'o' :: 'c' :: 'e' :: 's' :: 's' :: 'i' :: 'n' :: 'g' :: '/' :: 'i' :: 'n' :: 'p' :: 'u' :: 't' :: '_' ::
        (j.data ++ '_' :: fn.data) := by
  have h : localInputPath j fn
      = TEMP_PROCESSING_DIR ++ "/" ++ ("input_" ++ gcsInputFilename j fn) := rfl
  rw [h]
  simp [gcsInputFilename, TEMP_PROCESSING_DIR, String.data_append]

/-- Data of the local output working path. -/
lemma localOutputPath_data (j fn fmt : String) :
    (localOutputPath j fn fmt).data
      = '/' :: 't' :: 'm' :: 'p' :: '/' :: 'v' :: 'i' :: 'd' :: 'e' :: 'o' :: 'c' :: 'o' :: 'n' :: 'v' :: 'e' :: 'r' :: 't' :: 'e' :: 'r' :: '_' :: 'p' :: 'r' :: 'o' :: 'c' :: 'e' :: 's' :: 's' :: 'i' :: 'n' :: 'g' :: '/' :: 'o' :: 'u' :: 't' :: 'p' :: 'u' :: 't' :: '_' ::
        (j.data ++ '_' :: ((splitextBase fn).data ++ '.' :: fmt.data)) := by
  have h : localOutputPath j fn fmt
      = TEMP_PROCESSING_DIR ++ "/" ++ ("output_" ++ gcsOutputFilename j fn fmt) := rfl
  rw [h]
  simp [gcsOutputFilename, TEMP_PROCESSING_DIR, String.data_append]

/-- Two equal-length job ids followed by an underscore and arbitrary
tails agree as soon as the concatenations agree. -/
lemma jobId_eq_of_mid_eq {a b : String} {x y : List Char}
    (hlen : a.length = b.length) (h : a.data ++ '_' :: x = b.data ++ '_' :: y) : a = b :=
  String.ext (List.append_inj h hlen).1

/-- A string that ends (case already folded) in .json ends in none of the
seven supported video extensions, since the final characters differ. -/
lemma no_video_ext_of_json (s : String) (h : endsWithStr s ".json" = true) :
    (endsWithStr s ".mp4" || endsWithStr s ".mov" || endsWithStr s ".avi" ||
     endsWithStr s ".mpg" || endsWithStr s ".mpeg" || endsWithStr s ".mkv" ||
     endsWithStr s ".webm") = false := by
  have hj : s.data.drop (s.data.length - 5) = ['.', 'j', 's', 'o', 'n'] := by
    have := of_decide_eq_true h
    simpa [endsWithStr] using this
  have hlen : s.data.length - (s.data.length - 5) = 5 := by
    have := congrArg List.length hj
    simpa using this
  have hge : 5 ≤ s.data.length := by omega
  have hdrop1 : ∀ k : Nat, k = s.data.length - 4 →
      s.data.drop k = ['j', 's', 'o', 'n'] := by
    intro k hk
    have hk' : k = (s.data.length - 5) + 1 := by omega
    rw [hk', ← List.drop_drop, hj]
    rfl
  simp only [Bool.or_eq_false_iff]
  refine ⟨⟨⟨⟨⟨⟨?_, ?_⟩, ?_⟩, ?_⟩, ?_⟩, ?_⟩, ?_⟩ <;>
    · apply decide_eq_false
      intro hx
      first
        | exact absurd (hj.symm.trans hx) (by decide)
        | exact absurd ((hdrop1 _ rfl).symm.trans hx) (by decide)

/-- Control-flow fact about the trigger: when the extension check fails,
every path through the handler is one of the three log-and-discard
returns. -/
lemma trigger_discard_of_unsupported (env : TriggerEnv) (bucket : Option String)
    (name : String) (h : hasSupportedVideoExtension name = false) :
    isDiscard (process_video_transcription env bucket (some name)) = true := by
  unfold process_video_transcription
  simp only [Option.getD_some, h, Bool.not_false, if_true]
  split
  · rfl
  · split
    · rfl
    · rfl

end VideoApp

namespace VideoApp

/-! ### Claim theorems -/

/-- Claim C1: for every job identifier id, when the trigger processes an
object named converted/id_clip.mov, the transcription output object name
it derives (OUTPUT_FOLDER, then the extension-stripped object name, then
.json, in the same bucket) is exactly the object name the poller checks
for identifier id_clip.mov; both resolve to
transcriptions/converted/id_clip.json. -/
theorem c1_transcript_roundtrip (id : String) :
    triggerOutputObjectName ("converted/" ++ id ++ "_clip.mov")
      = pollerTranscriptionBlobName (id ++ "_clip.mov")
    ∧ triggerOutputObjectName ("converted/" ++ id ++ "_clip.mov")
      = "transcriptions/converted/" ++ id ++ "_clip.json" := by
  unfold triggerOutputObjectName pollerTranscriptionBlobName OUTPUT_FOLDER
  rw [String.append_assoc, splitextBase_append_clip_mov, splitextBase_append_clip_mov]
  constructor
  · apply String.ext
    simp [String.data_append]
  · apply String.ext
    simp [String.data_append]

/-- Claim C2, counterexample: a request whose target format exe is not in
any recognized video-format allow-list is NOT rejected; the orchestrator
performs the full store and transcoder I/O sequence and reports success.
This refutes the claim that unrecognized target formats are rejected
before any store or transcoder I/O. -/
theorem c2_counterexample :
    (convert_video ⟨true, "v.mp4", some "exe", none⟩ "j" envAllOk).trace
      = [.store (.upload INPUT_BUCKET_NAME "uploads/j_v.mp4" none),
         .store (.download INPUT_BUCKET_NAME "uploads/j_v.mp4"),
         .transcode "/tmp/videoconverter_processing/input_j_v.mp4"
           "/tmp/videoconverter_processing/output_j_v.exe",
         .store (.upload OUTPUT_BUCKET_NAME "converted/j_v.exe" none)]
    ∧ (convert_video ⟨true, "v.mp4", some "exe", none⟩ "j" envAllOk).result
      = .redirected "j_v.exe" := by
  constructor
  · decide
  · decide

/-- Claim C2, amended: with the storage client initialized, the
orchestrator rejects before any store or transcoder I/O exactly the
requests that are missing the video file part, have an empty filename, or
have a missing or empty target format; every other request (any non-empty
format string, recognized or not) proceeds to store I/O, its first action
being the input upload. -/
theorem c2_amended_validation_gate (req : ConvertRequest) (jobId : String)
    (env : ConvertEnv) (hc : env.storageClientOk = true) :
    ((req.hasVideoFile = false ∨ req.filename = "" ∨ falsyStr req.format = true) →
        convert_video req jobId env = ⟨.aborted 400, [], []⟩)
    ∧ (req.hasVideoFile = true → req.filename ≠ "" → falsyStr req.format = false →
        (convert_video req jobId env).trace.head?
          = some (.store (.upload INPUT_BUCKET_NAME (inputBlobName jobId req.filename)
              req.contentType))) := by
  constructor
  · intro hbad
    unfold convert_video
    rw [hc]
    rcases hbad with hb | hb | hb <;> simp [hb]
  · intro h1 h2 h3
    unfold convert_video
    rw [hc, h1]
    simp only [h3, h2, Bool.not_true, Bool.false_eq_true, if_false, or_false, if_neg,
      not_false_eq_true]
    repeat' split
    all_goals rfl

/-- Witness for c2_amended_validation_gate at a concrete request. -/
theorem c2_amended_validation_gate_witness :
    (convert_video ⟨true, "w.mp4", some "flv", none⟩ "wj" envAllOk).trace.head?
      = some (.store (.upload INPUT_BUCKET_NAME (inputBlobName "wj" "w.mp4") none)) :=
  (c2_amended_validation_gate ⟨true, "w.mp4", some "flv", none⟩ "wj" envAllOk rfl).2
    rfl (by decide) rfl

/-- Claim C3 names a code bug: for target format mov the handler computes
the content-type override video/quicktime (and video/x-msvideo for avi),
but the actual output upload is performed with NO content type — line 228
of app.py never passes the computed value to upload_from_filename.  This
theorem evaluates the embedded code at the failing input: the computed
override exists, yet the output upload action carries none. -/
theorem c3_content_type_computed_but_not_applied :
    computedOutputContentType "mov" = some "video/quicktime"
    ∧ computedOutputContentType "avi" = some "video/x-msvideo"
    ∧ (convert_video ⟨true, "v.mp4", some "mov", some "video/mp4"⟩ "j" envAllOk).trace
      = [.store (.upload INPUT_BUCKET_NAME "uploads/j_v.mp4" (some "video/mp4")),
         .store (.download INPUT_BUCKET_NAME "uploads/j_v.mp4"),
         .transcode "/tmp/videoconverter_processing/input_j_v.mp4"
           "/tmp/videoconverter_processing/output_j_v.mov",
         .store (.upload OUTPUT_BUCKET_NAME "converted/j_v.mov" none)] := by
  refine ⟨by decide, by decide, by decide⟩

/-- Claim C4, counterexample: when ffmpeg fails after creating a partial
output file, the handler removes only the local input; the partial local
output file remains in the scratch directory when the error is returned.
This refutes the claim that neither local working file exists any
longer. -/
theorem c4_counterexample :
    (convert_video ⟨true, "v.mp4", some "avi", none⟩ "j"
        { envAllOk with ffmpegError := some "boom", ffmpegLeavesStrayOutput := true }).result
      = .aborted 500
    ∧ (convert_video ⟨true, "v.mp4", some "avi", none⟩ "j"
        { envAllOk with ffmpegError := some "boom", ffmpegLeavesStrayOutput := true }).localFiles
      = ["/tmp/videoconverter_processing/output_j_v.avi"] := by
  refine ⟨by decide, by decide⟩

/-- Claim C4, amended: when the transcode step fails on a validly started
request, the orchestrator aborts with status 500 and removes the local
input file (here: its removal succeeds), but it does not remove a partial
local output file — exactly the partial output, when the transcoder
created one, remains in the scratch directory. -/
theorem c4_amended_ffmpeg_failure_cleanup (req : ConvertRequest) (jobId : String)
    (env : ConvertEnv) (emsg : String)
    (hc : env.storageClientOk = true) (h1 : req.hasVideoFile = true)
    (h2 : req.filename ≠ "") (h3 : falsyStr req.format = false)
    (h4 : env.inputUploadOk = true) (h5 : env.inputDownload = .ok)
    (h6 : env.ffmpegError = some emsg) (h7 : env.removeAfterFfmpegErrorOk = true) :
    (convert_video req jobId env).result = .aborted 500
    ∧ (convert_video req jobId env).localFiles
      = (if env.ffmpegLeavesStrayOutput
         then [localOutputPath jobId req.filename (req.format.getD "")] else []) := by
  unfold convert_video
  simp [hc, h1, h3, h4, h5, h6, h7, h2]

/-- Witness for c4_amended_ffmpeg_failure_cleanup at a concrete request. -/
theorem c4_amended_ffmpeg_failure_cleanup_witness :
    (convert_video ⟨true, "a.mp4", some "avi", none⟩ "wj"
        { envAllOk with ffmpegError := some "err", ffmpegLeavesStrayOutput := true }).localFiles
      = ["/tmp/videoconverter_processing/output_wj_a.avi"] := by
  have h := c4_amended_ffmpeg_failure_cleanup ⟨true, "a.mp4", some "avi", none⟩ "wj"
    { envAllOk with ffmpegError := some "err", ffmpegLeavesStrayOutput := true } "err"
    rfl rfl (by decide) rfl rfl rfl rfl rfl
  rw [h.2]
  decide

/-- Claim C5, counterexample: for arbitrary distinct job identifier
strings the derived names need not be distinct — identifiers 1 and 1_2
with original filenames 2_v.mp4 and v.mp4 collide on both the input
object name and the local input working path.  This refutes the claim for
arbitrary distinct identifier strings. -/
theorem c5_counterexample :
    inputBlobName "1" "2_v.mp4" = inputBlobName "1_2" "v.mp4"
    ∧ localInputPath "1" "2_v.mp4" = localInputPath "1_2" "v.mp4"
    ∧ ("1" : String) ≠ "1_2" := by
  refine ⟨by decide, by decide, by decide⟩

/-- Claim C5, amended: for job identifiers of equal length — as the
UUID4 strings the code mints always are — with a different from b, every
derived name of job a (input object, output object, local input path,
local output path) is distinct from every derived name of job b, for any
original filenames and target formats. -/
theorem c5_amended_names_disjoint (a b fnA fnB fmtA fmtB : String)
    (hlen : a.length = b.length) (hne : a ≠ b) :
    List.Disjoint (convertJobNames a fnA fmtA) (convertJobNames b fnB fmtB) := by
  intro x hx hy
  simp only [convertJobNames, List.mem_cons, List.not_mem_nil, or_false] at hx hy
  rcases hx with rfl | rfl | rfl | rfl <;>
    rcases hy with h | h | h | h <;>
    · have hd := congrArg String.data h
      simp only [inputBlobName_data, outputBlobName_data, localInputPath_data,
        localOutputPath_data, List.cons.injEq, true_and] at hd
      first
        | exact hne (jobId_eq_of_mid_eq hlen hd)
        | exact absurd hd.1 (by decide)

/-- Witness for c5_amended_names_disjoint at concrete jobs. -/
theorem c5_amended_names_disjoint_witness :
    List.Disjoint (convertJobNames "aa" "f.mp4" "mov") (convertJobNames "bb" "g.avi" "mp4") :=
  c5_amended_names_disjoint "aa" "bb" "f.mp4" "g.avi" "mov" "mp4" rfl (by decide)

/-- Claim C6: every trigger event whose object name fails the
case-insensitive video-extension check (.mp4, .mov, .avi, .mpg, .mpeg,
.mkv, .webm) is discarded: the handler takes one of its log-and-return
exits and submits no transcription job. -/
theorem c6_unsupported_extension_discarded (env : TriggerEnv) (bucket : Option String)
    (name : String) (h : hasSupportedVideoExtension name = false) :
    isDiscard (process_video_transcription env bucket (some name)) = true :=
  trigger_discard_of_unsupported env bucket name h

/-- Witness for c6_unsupported_extension_discarded at a concrete event. -/
theorem c6_unsupported_extension_discarded_witness :
    isDiscard (process_video_transcription ⟨true, true⟩ (some "bkt") (some "notes.txt"))
      = true :=
  c6_unsupported_extension_discarded ⟨true, true⟩ (some "bkt") "notes.txt" (by decide)

/-- Claim C7, counterexample: a failure while constructing the
transcription-service client (which happens on line 52 of main.py, before
the try block) propagates out of the handler instead of being swallowed:
on a valid event with clientInitOk false the handler raises.  This
refutes the claim that every failure that occurs while starting the job,
including constructing the client, returns normally. -/
theorem c7_counterexample :
    process_video_transcription ⟨false, true⟩ (some "bkt") (some "video.mp4")
      = TriggerResult.raised := by
  decide

/-- Claim C7, amended: failures of the annotate_video submission itself
are caught and swallowed — whenever the client construction succeeds, the
trigger returns normally on every event and never raises to the
event-delivery system. -/
theorem c7_amended_submit_failures_swallowed (env : TriggerEnv) (bucket name : Option String)
    (h : env.clientInitOk = true) :
    process_video_transcription env bucket name ≠ TriggerResult.raised := by
  unfold process_video_transcription
  simp only [h, Bool.not_true, Bool.false_eq_true, if_false]
  split
  · exact fun hc => TriggerResult.noConfusion hc
  · split
    · exact fun hc => TriggerResult.noConfusion hc
    · split
      · exact fun hc => TriggerResult.noConfusion hc
      · split <;> exact fun hc => TriggerResult.noConfusion hc

/-- Witness for c7_amended_submit_failures_swallowed at a concrete event. -/
theorem c7_amended_submit_failures_swallowed_witness :
    process_video_transcription ⟨true, true⟩ (some "b") (some "v.mp4")
      ≠ TriggerResult.raised :=
  c7_amended_submit_failures_swallowed ⟨true, true⟩ (some "b") (some "v.mp4") rfl

/-- Claim C8 (implicit): every trigger event whose object name ends with
.json case-insensitively is discarded without submitting a transcription
job — the extension allow-list alone excludes transcription outputs,
since a name ending in .json (after lowercasing) can end in none of the
seven video extensions. -/
theorem c8_json_never_submitted (env : TriggerEnv) (bucket : Option String)
    (name : String) (h : endsWithStr (pyLower name) ".json" = true) :
    isDiscard (process_video_transcription env bucket (some name)) = true := by
  have hx : hasSupportedVideoExtension name = false := by
    unfold hasSupportedVideoExtension
    exact no_video_ext_of_json (pyLower name) h
  exact trigger_discard_of_unsupported env bucket name hx

/-- Witness for c8_json_never_submitted at a concrete event. -/
theorem c8_json_never_submitted_witness :
    isDiscard (process_video_transcription ⟨true, true⟩ (some "bkt") (some "x.JSON"))
      = true :=
  c8_json_never_submitted ⟨true, true⟩ (some "bkt") "x.JSON" (by decide)

/-- Claim C9 (implicit): on every path through the orchestrator — any
request, any job identifier, any pattern of external outcomes — the trace
of store actions contains no delete: the orchestrator never deletes any
object from the input or output store, so the uploaded input object
persists; only local working files are ever removed. -/
theorem c9_no_store_deletes (req : ConvertRequest) (jobId : String) (env : ConvertEnv) :
    ((convert_video req jobId env).trace.all fun a => ! a.isDelete) = true := by
  unfold convert_video
  repeat' split
  all_goals rfl

/-- Claim C10 (implicit): the poller transcript lookup name depends only
on the extension-stripped base of the identifier, and is therefore not
injective over identifiers: identifiers differing only in extension, such
as x_clip.mp4 and x_clip.mov, are checked against the same transcript
object name. -/
theorem c10_lookup_depends_only_on_base :
    (∀ a b : String, splitextBase a = splitextBase b →
      pollerTranscriptionBlobName a = pollerTranscriptionBlobName b)
    ∧ pollerTranscriptionBlobName "x_clip.mp4" = pollerTranscriptionBlobName "x_clip.mov"
    ∧ ("x_clip.mp4" : String) ≠ "x_clip.mov" := by
  refine ⟨fun a b h => ?_, by decide, by decide⟩
  unfold pollerTranscriptionBlobName
  rw [h]

/-- Witness for c10_lookup_depends_only_on_base at concrete identifiers. -/
theorem c10_lookup_depends_only_on_base_witness :
    pollerTranscriptionBlobName "a.mp4" = pollerTranscriptionBlobName "a.avi" :=
  c10_lookup_depends_only_on_base.1 "a.mp4" "a.avi" (by decide)

end VideoApp
